import Mathlib

/-!
Shallow embedding of the numeric pipeline of the AI Deal Checker app
(src/app.py).  Python floats are modelled as exact rationals and Python
strings as lists of characters (code points).  Because the library's
rational arithmetic is `@[irreducible]`, the embedding spells `+`, `-`,
`*` and constant division with executable wrappers (`qadd`, `qsub`,
`qmul`, `qdivNat`, `mkRat`); the lemmas `qadd_eq`, `qsub_eq`, `qmul_eq`
prove the wrappers equal to the ordinary field operations on ℚ, so
concrete runs evaluate by `decide` while general theorems use ordinary
arithmetic.  JSON values that may be missing are `Option`s and values
that Python `float()` rejects are `PyVal.other`.
-/

namespace DealCheck

/-- Executable addition on ℚ. -/
def qadd (a b : ℚ) : ℚ := mkRat (a.num * b.den + b.num * a.den) (a.den * b.den)

/-- Executable negation on ℚ. -/
def qneg (a : ℚ) : ℚ := mkRat (-a.num) a.den

/-- Executable subtraction on ℚ. -/
def qsub (a b : ℚ) : ℚ := qadd a (qneg b)

/-- Executable multiplication on ℚ. -/
def qmul (a b : ℚ) : ℚ := mkRat (a.num * b.num) (a.den * b.den)

/-- Executable division of a rational by a natural number. -/
def qdivNat (a : ℚ) (n : ℕ) : ℚ := mkRat a.num (a.den * n)

/-- Python `min` on two floats (first argument wins ties). -/
def pymin (a b : ℚ) : ℚ := if a ≤ b then a else b

/-- Python `max` on two floats. -/
def pymax (a b : ℚ) : ℚ := if a ≤ b then b else a

/-- A JSON value fed to `clip`: either a number or something `float()` rejects. -/
inductive PyVal where
  | num (q : ℚ)
  | other
deriving DecidableEq

/-- `clip(x, lo, hi)` from src/app.py lines 183-188: `float(x)` with
fallback 0.0 on failure, then `max(lo, min(hi, x))`. -/
def clip (x : PyVal) (lo hi : ℚ) : ℚ :=
  match x with
  | .num q => pymax lo (pymin hi q)
  | .other => pymax lo (pymin hi 0)

/-- Round-half-to-even to an integer, the rounding used by Python `round`.
The comparisons of the fractional part against 1/2 are carried out on
integers (`2*num - 2*floor*den` against `den`) so that the function
evaluates by kernel reduction. -/
def roundHalfEven (y : ℚ) : ℤ :=
  if 2 * y.num - 2 * y.floor * (y.den : ℤ) < (y.den : ℤ) then y.floor
  else if (y.den : ℤ) < 2 * y.num - 2 * y.floor * (y.den : ℤ) then y.floor + 1
  else if y.floor % 2 = 0 then y.floor else y.floor + 1

/-- Python `round(x, 1)` over ℚ. -/
def round1 (x : ℚ) : ℚ := mkRat (roundHalfEven (qmul 10 x)) 10

/-- Python `round(x, 2)` over ℚ. -/
def round2 (x : ℚ) : ℚ := mkRat (roundHalfEven (qmul 100 x)) 100

/-- Python `round(x, 3)` over ℚ. -/
def round3 (x : ℚ) : ℚ := mkRat (roundHalfEven (qmul 1000 x)) 1000

/-! ## Python strings

Python strings are modelled as lists of code points; `strip`, `lower` and
`upper` are modelled at the ASCII level (the level the app relies on). -/

/-- Python `str.strip()`. -/
def pyStrip (s : List Char) : List Char :=
  ((s.dropWhile Char.isWhitespace).reverse.dropWhile Char.isWhitespace).reverse

/-- Python `str.lower()`. -/
def pyLower (s : List Char) : List Char := s.map Char.toLower

/-- Python `str.upper()`. -/
def pyUpper (s : List Char) : List Char := s.map Char.toUpper

/-! ## The Analyze Deal handler, src/app.py lines 605-871 -/

/-- Sanity clamp of the producer's `deal_score` (line 663):
`clip(data.get("deal_score", 60), 0, 100)`. -/
def base_score (deal_score : Option PyVal) : ℚ :=
  clip (deal_score.getD (PyVal.num 60)) 0 100

/-- Sanity clamp of one ROI leg (lines 664-666):
`clip(roi24.get(k, 0), -50, 50)`. -/
def roi_leg (v : Option PyVal) : ℚ :=
  clip (v.getD (PyVal.num 0)) (-50) 50

/-- The fields of a stored history entry read back by the handler.
`deal_score` models `exact_prev.get("deal_score", ...)` and
`roi_expected` models `exact_prev.get("roi_forecast_24m", {}).get("expected", ...)`
(`none` = key absent, so the handler's default applies). -/
structure HistoryRecord where
  deal_score : Option ℚ
  roi_expected : Option ℚ

/-- `similar_avg` (lines 633-636): `round(sum(vals)/len(vals), 2)` over the
numeric `score` fields (deal scores) of the kept similar records, `None`
when there are no similar records or no numeric scores. -/
def similarAvg (scores : List (Option ℚ)) : Option ℚ :=
  if scores.isEmpty then none
  else
    let vals := scores.filterMap id
    if vals.isEmpty then none
    else some (round2 (qdivNat (vals.foldl qadd 0) vals.length))

/-- Memory stabilization of the deal score (lines 679-685). -/
def blendScore (base : ℚ) (exact_prev : Option HistoryRecord)
    (sims_nonempty : Bool) (similar_avg : Option ℚ) : ℚ :=
  match exact_prev, similar_avg with
  | some e, some a =>
      if sims_nonempty then
        round1 (qadd (qadd (qmul (mkRat 80 100) base)
          (qmul (mkRat 15 100) (e.deal_score.getD base)))
          (qmul (mkRat 5 100) a))
      else
        round1 (qadd (qmul (mkRat 75 100) base)
          (qmul (mkRat 25 100) (e.deal_score.getD base)))
  | some e, none =>
      round1 (qadd (qmul (mkRat 75 100) base)
        (qmul (mkRat 25 100) (e.deal_score.getD base)))
  | none, some a =>
      round1 (qadd (qmul (mkRat 90 100) base) (qmul (mkRat 10 100) a))
  | none, none => base

/-- Memory stabilization of the expected ROI (lines 687-699).  Note the
source's `(similar_avg or ...)`: a `similar_avg` equal to `0.0` is falsy
in Python, hence the `if a = 0` branches. -/
def blendRoiExpected (cur : ℚ) (exact_prev : Option HistoryRecord)
    (sims_nonempty : Bool) (similar_avg : Option ℚ) : ℚ :=
  match exact_prev, similar_avg with
  | some e, some a =>
      if sims_nonempty then
        round1 (qadd (qadd (qmul (mkRat 80 100) cur)
          (qmul (mkRat 15 100) (e.roi_expected.getD cur)))
          (qmul (mkRat 5 100) (if a = 0 then cur else a)))
      else
        round1 (qadd (qmul (mkRat 75 100) cur)
          (qmul (mkRat 25 100) (e.roi_expected.getD cur)))
  | some e, none =>
      round1 (qadd (qmul (mkRat 75 100) cur)
        (qmul (mkRat 25 100) (e.roi_expected.getD cur)))
  | none, some a =>
      round1 (qadd (qmul (mkRat 90 100) cur)
        (qmul (mkRat 10 100) (if a = 0 then (0 : ℚ) else a)))
  | none, none => cur

/-- The branded-title set (line 703). -/
def branded_titles : List (List Char) :=
  ["rebuilt".data, "salvage".data, "branded".data, "flood".data, "lemon".data]

/-- `title_status = str(facts.get("title_status", "unknown")).strip().lower()`
(line 674) and the membership test of line 703. -/
def isBranded (title_status : Option (List Char)) : Bool :=
  branded_titles.contains (pyLower (pyStrip (title_status.getD ("unknown".data))))

/-- The branded-title cap on the final score (line 705):
`final_score = min(75.0, final_score - 5.0)`. -/
def brandedCap (branded : Bool) (fs : ℚ) : ℚ :=
  if branded then pymin 75 (qsub fs 5) else fs

/-- The legacy 24-month ROI triple after the sanity clamp. -/
structure Roi24 where
  expected : ℚ
  optimistic : ℚ
  pessimistic : ℚ
deriving DecidableEq

/-- The branded-title ROI penalty (line 706):
`roi24["expected"] = round(roi24.get("expected", 0) - 5.0, 1)`.
Only the expected leg is touched and nothing is re-clipped. -/
def branded_roi_adjust (branded : Bool) (r : Roi24) : Roi24 :=
  if branded then { r with expected := round1 (qsub r.expected 5) } else r

/-- `state_or_zip = (facts.get("state_or_zip") or "").strip().upper()` (line 710). -/
def normState (s : Option (List Char)) : List Char := pyUpper (pyStrip (s.getD []))

/-- `re.fullmatch(r"[A-Z]{2}", s)` as a Boolean. -/
def isTwoUpper (s : List Char) : Bool := s.length == 2 && s.all Char.isUpper

/-- `re.fullmatch(r"\d{5}", s)` as a Boolean. -/
def isFiveDigit (s : List Char) : Bool := s.length == 5 && s.all Char.isDigit

/-- `state_code` (lines 711-715): the two-letter code itself, `""` otherwise
(including every five-digit ZIP). -/
def stateCode (s : List Char) : List Char := if isTwoUpper s then s else []

/-- `RUST_BELT_STATES` (line 143). -/
def RUST_BELT_STATES : List (List Char) :=
  ["IL".data, "MI".data, "OH".data, "WI".data, "PA".data,
   "NY".data, "MN".data, "IN".data, "MA".data, "NJ".data]

/-- The rust-belt adjustment (lines 717-718):
`final_score = round(final_score - 1.5, 1)` when the state code is in the
Rust Belt set. -/
def rustAdjust (state_code : List Char) (fs : ℚ) : ℚ :=
  if RUST_BELT_STATES.contains state_code then round1 (qsub fs (mkRat 15 10)) else fs

/-- The final deal score of one Analyze Deal run: sanity clamp (line 663),
memory stabilization (lines 679-685), branded cap (lines 702-705),
rust-belt adjustment (lines 710-718), in source order. -/
def finalDealScore (deal_score : Option PyVal) (exact_prev : Option HistoryRecord)
    (sims_nonempty : Bool) (similar_avg : Option ℚ)
    (title_status state_or_zip : Option (List Char)) : ℚ :=
  rustAdjust (stateCode (normState state_or_zip))
    (brandedCap (isBranded title_status)
      (blendScore (base_score deal_score) exact_prev sims_nonempty similar_avg))

/-- The legacy 24-month ROI triple of one Analyze Deal run: sanity clamp
(lines 664-666), expected-leg stabilization (lines 687-699), branded
penalty (line 706).  `_ask_price` is the producer's `ask_price_usd`: the
handler reads it only to display it (line 765) so it never reaches the
ROI computation. -/
def analyzeRoi (_ask_price : Option PyVal) (expected optimistic pessimistic : Option PyVal)
    (exact_prev : Option HistoryRecord) (sims_nonempty : Bool) (similar_avg : Option ℚ)
    (title_status : Option (List Char)) : Roi24 :=
  branded_roi_adjust (isBranded title_status)
    { expected := blendRoiExpected (roi_leg expected) exact_prev sims_nonempty similar_avg
      optimistic := roi_leg optimistic
      pessimistic := roi_leg pessimistic }

/-- `confidence = clip(float(data.get("confidence_level", 0.7)) * 100, 0, 100)`
(line 724). -/
def confidence (confidence_level : Option ℚ) : ℚ :=
  clip (PyVal.num (qmul (confidence_level.getD (mkRat 7 10)) 100)) 0 100

/-- The `confidence_level` written into the history entry (line 857):
`round(confidence / 100, 3)`. -/
def confidence_level_saved (confidence_level : Option ℚ) : ℚ :=
  round3 (qdivNat (confidence confidence_level) 100)

/-- `MEMORY_LIMIT` (line 117). -/
def MEMORY_LIMIT : Nat := 600

/-- The history-store transformation of `save_history` (lines 243-247):
load, append the new entry, keep only the last `MEMORY_LIMIT` records. -/
def save_history {α : Type} (data : List α) (entry : α) : List α :=
  if (data ++ [entry]).length > MEMORY_LIMIT then
    (data ++ [entry]).drop ((data ++ [entry]).length - MEMORY_LIMIT)
  else data ++ [entry]

/-! ## MD5 (RFC 1321), used by `unique_ad_id` via `hashlib.md5`

Bytes are naturals < 256 and 32-bit words naturals < 2^32; overflow is
explicit `% 4294967296`. -/

/-- The 64 MD5 sine-derived constants `floor(2^32 * abs(sin(i+1)))`. -/
def md5K : List Nat :=
  [3614090360, 3905402710, 606105819, 3250441966, 4118548399, 1200080426,
   2821735955, 4249261313, 1770035416, 2336552879, 4294925233, 2304563134,
   1804603682, 4254626195, 2792965006, 1236535329, 4129170786, 3225465664,
   643717713, 3921069994, 3593408605, 38016083, 3634488961, 3889429448,
   568446438, 3275163606, 4107603335, 1163531501, 2850285829, 4243563512,
   1735328473, 2368359562, 4294588738, 2272392833, 1839030562, 4259657740,
   2763975236, 1272893353, 4139469664, 3200236656, 681279174, 3936430074,
   3572445317, 76029189, 3654602809, 3873151461, 530742520, 3299628645,
   4096336452, 1126891415, 2878612391, 4237533241, 1700485571, 2399980690,
   4293915773, 2240044497, 1873313359, 4264355552, 2734768916, 1309151649,
   4149444226, 3174756917, 718787259, 3951481745]

/-- The per-operation left-rotation amounts. -/
def md5S : List Nat :=
  [7, 12, 17, 22, 7, 12, 17, 22, 7, 12, 17, 22, 7, 12, 17, 22,
   5, 9, 14, 20, 5, 9, 14, 20, 5, 9, 14, 20, 5, 9, 14, 20,
   4, 11, 16, 23, 4, 11, 16, 23, 4, 11, 16, 23, 4, 11, 16, 23,
   6, 10, 15, 21, 6, 10, 15, 21, 6, 10, 15, 21, 6, 10, 15, 21]

/-- Left rotation of a 32-bit word. -/
def rotl32 (x s : Nat) : Nat :=
  Nat.lor ((x * 2 ^ s) % 4294967296) (x / 2 ^ (32 - s))

/-- A 64-byte block as 16 little-endian 32-bit words. -/
def blockWords (b : List Nat) : List Nat :=
  (List.range 16).map fun j =>
    b.getD (4 * j) 0 + 256 * b.getD (4 * j + 1) 0 +
    65536 * b.getD (4 * j + 2) 0 + 16777216 * b.getD (4 * j + 3) 0

/-- One of the 64 MD5 operations. -/
def md5Round (M : List Nat) (st : Nat × Nat × Nat × Nat) (i : Nat) :
    Nat × Nat × Nat × Nat :=
  match st with
  | (a, b, c, d) =>
    let fg : Nat × Nat :=
      if i < 16 then
        (Nat.lor (Nat.land b c) (Nat.land (Nat.xor b 4294967295) d), i)
      else if i < 32 then
        (Nat.lor (Nat.land d b) (Nat.land (Nat.xor d 4294967295) c), (5 * i + 1) % 16)
      else if i < 48 then
        (Nat.xor (Nat.xor b c) d, (3 * i + 5) % 16)
      else
        (Nat.xor c (Nat.lor b (Nat.xor d 4294967295)), (7 * i) % 16)
    let tmp := (a + fg.1 + md5K.getD i 0 + M.getD fg.2 0) % 4294967296
    (d, (b + rotl32 tmp (md5S.getD i 0)) % 4294967296, b, c)

/-- Process one 64-byte block. -/
def md5Block (st : Nat × Nat × Nat × Nat) (block : List Nat) :
    Nat × Nat × Nat × Nat :=
  match st, (List.range 64).foldl (md5Round (blockWords block)) st with
  | (a0, b0, c0, d0), (a, b, c, d) =>
    ((a0 + a) % 4294967296, (b0 + b) % 4294967296,
     (c0 + c) % 4294967296, (d0 + d) % 4294967296)

/-- Split into 64-byte blocks (fuel-structured so it evaluates by kernel
reduction; the fuel `l.length` always suffices). -/
def md5BlocksAux (fuel : Nat) (l : List Nat) : List (List Nat) :=
  match fuel with
  | 0 => []
  | fuel + 1 => if l.isEmpty then [] else l.take 64 :: md5BlocksAux fuel (l.drop 64)

def md5Blocks (l : List Nat) : List (List Nat) := md5BlocksAux l.length l

/-- MD5 padding: `0x80`, zeros to 56 mod 64, message bit length as eight
little-endian bytes. -/
def md5Pad (msg : List Nat) : List Nat :=
  let L := msg.length
  msg ++ [128] ++ List.replicate ((120 - (L + 1) % 64) % 64) 0 ++
    (List.range 8).map fun i => 8 * L / 256 ^ i % 256

/-- MD5 digest of a byte sequence, as 16 bytes. -/
def md5Digest (msg : List Nat) : List Nat :=
  match (md5Blocks (md5Pad msg)).foldl md5Block
      (1732584193, 4023233417, 2562383102, 271733878) with
  | (a, b, c, d) =>
    [a, b, c, d].flatMap fun x => (List.range 4).map fun i => x / 256 ^ i % 256

/-- A lowercase hexadecimal digit. -/
def hexChar (n : Nat) : Char :=
  if n < 10 then Char.ofNat (48 + n) else Char.ofNat (87 + n)

/-- `hashlib.md5(...).hexdigest()`: 32 lowercase hex characters. -/
def md5Hex (msg : List Nat) : List Char :=
  md5Digest msg |>.flatMap fun b => [hexChar (b / 16), hexChar (b % 16)]

/-- UTF-8 encoding of one code point (Python `str.encode()`). -/
def utf8Bytes (c : Char) : List Nat :=
  let n := c.toNat
  if n < 128 then [n]
  else if n < 2048 then [192 + n / 64, 128 + n % 64]
  else if n < 65536 then [224 + n / 4096, 128 + n / 64 % 64, 128 + n % 64]
  else [240 + n / 262144, 128 + n / 4096 % 64, 128 + n / 64 % 64, 128 + n % 64]

/-- Python `str.encode()` over the code points of a string. -/
def strBytes (s : List Char) : List Nat := s.flatMap utf8Bytes

/-- Python `str(float(p))` for the integral price guess produced by
`extract_price_from_text` (`"0"` for the integer fallback of line 613). -/
def priceStr : Option Nat → List Char
  | none => Nat.toDigits 10 0
  | some n => Nat.toDigits 10 n ++ ['.', '0']

/-- `unique_ad_id` (src/app.py lines 212-214): the first 12 hex characters of
the MD5 of the uppercased, stripped VIN when a VIN is present, else of the
lowercased join of description prefix, price guess, location and seller. -/
def unique_ad_id (ad_text vin zip_or_state : List Char) (price_guess : Option Nat)
    (seller : List Char) : List Char :=
  let base :=
    if vin.isEmpty then
      pyLower (ad_text.take 160 ++ ('|' :: priceStr price_guess) ++
        ('|' :: zip_or_state) ++ ('|' :: seller))
    else pyUpper (pyStrip vin)
  (md5Hex (strBytes base)).take 12

/-! ## Definitions modelled from the spec's words, for contrast only -/

/-- The score normalizer described by the spec (§4.1) and claim C2 — scale
repair ×10 / ÷10 / fallback 90, clip to [0,100], default 50.  Defined only
to contrast with the code's `base_score`, which has no such logic. -/
def specNormalizeScore (v : Option ℚ) : ℚ :=
  match v with
  | none => 50
  | some x =>
      pymax 0 (pymin 100
        (if x ≤ 10 then qmul 10 x
         else if 300 ≤ x ∧ x ≤ 1000 then qdivNat x 10
         else if 1000 < x then 90 else x))

/-- The ROI-leg normalizer described by the spec (§4.1) and claim C5 —
divide by 100 when `|value| > 200`, clip to [-80,60].  Defined only to
contrast with the code's `roi_leg`. -/
def specNormalizeRoi (r : ℚ) : ℚ :=
  pymax (-80) (pymin 60 (if 200 < r ∨ r < -200 then qdivNat r 100 else r))

/-! ## Bridging lemmas -/

theorem mkRat_eq_cast_div (n : ℤ) (d : ℕ) : mkRat n d = (n : ℚ) / (d : ℚ) := by
  rw [Rat.mkRat_eq_divInt, Rat.divInt_eq_div]
  norm_cast

theorem num_eq_mul_den (a : ℚ) : (a.num : ℚ) = a * (a.den : ℚ) := by
  have hd : ((a.den : ℚ)) ≠ 0 := by
    exact_mod_cast a.den_nz
  exact (div_eq_iff hd).mp (Rat.num_div_den a)

theorem qadd_eq (a b : ℚ) : qadd a b = a + b := by
  have ha : ((a.den : ℚ)) ≠ 0 := by exact_mod_cast a.den_nz
  have hb : ((b.den : ℚ)) ≠ 0 := by exact_mod_cast b.den_nz
  unfold qadd
  rw [mkRat_eq_cast_div]
  push_cast
  rw [div_eq_iff (mul_ne_zero ha hb), num_eq_mul_den a, num_eq_mul_den b]
  ring

theorem qneg_eq (a : ℚ) : qneg a = -a := by
  have ha : ((a.den : ℚ)) ≠ 0 := by exact_mod_cast a.den_nz
  unfold qneg
  rw [mkRat_eq_cast_div]
  push_cast
  rw [div_eq_iff ha, num_eq_mul_den a]
  ring

theorem qsub_eq (a b : ℚ) : qsub a b = a - b := by
  unfold qsub
  rw [qadd_eq, qneg_eq]
  ring

theorem qmul_eq (a b : ℚ) : qmul a b = a * b := by
  have ha : ((a.den : ℚ)) ≠ 0 := by exact_mod_cast a.den_nz
  have hb : ((b.den : ℚ)) ≠ 0 := by exact_mod_cast b.den_nz
  unfold qmul
  rw [mkRat_eq_cast_div]
  push_cast
  rw [div_eq_iff (mul_ne_zero ha hb), num_eq_mul_den a, num_eq_mul_den b]
  ring

theorem pymin_eq (a b : ℚ) : pymin a b = min a b := (min_def a b).symm

theorem pymax_eq (a b : ℚ) : pymax a b = max a b := (max_def a b).symm

theorem rat_floor_eq_floor (y : ℚ) : y.floor = ⌊y⌋ :=
  (Rat.floor_def' y).trans Rat.floor_def.symm

theorem roundHalfEven_le_add_half (y : ℚ) : (roundHalfEven y : ℚ) ≤ y + 1/2 := by
  have hfl : ((y.floor : ℤ) : ℚ) ≤ y := by
    rw [rat_floor_eq_floor]; exact Int.floor_le y
  have hd : (0 : ℚ) < (y.den : ℚ) := by exact_mod_cast y.pos
  have hnum : (y.num : ℚ) = y * (y.den : ℚ) := num_eq_mul_den y
  unfold roundHalfEven
  split_ifs with h1 h2 h3
  · linarith
  · have h2q : ((y.den : ℤ) : ℚ) < ((2 * y.num - 2 * y.floor * (y.den : ℤ) : ℤ) : ℚ) := by
      exact_mod_cast h2
    push_cast at h2q ⊢
    nlinarith
  · linarith
  · have hge : (y.den : ℤ) ≤ 2 * y.num - 2 * y.floor * (y.den : ℤ) := not_lt.mp h1
    have hgeq : ((y.den : ℤ) : ℚ) ≤ ((2 * y.num - 2 * y.floor * (y.den : ℤ) : ℤ) : ℚ) := by
      exact_mod_cast hge
    push_cast at hgeq ⊢
    nlinarith

theorem round1_le_add (x : ℚ) : round1 x ≤ x + 1/20 := by
  have h := roundHalfEven_le_add_half (qmul 10 x)
  rw [qmul_eq] at h
  unfold round1
  rw [mkRat_eq_cast_div, qmul_eq]
  push_cast
  rw [div_le_iff₀ (by norm_num : (0:ℚ) < 10)]
  linarith

theorem clip_bounds (x : PyVal) (lo hi : ℚ) (h : lo ≤ hi) :
    lo ≤ clip x lo hi ∧ clip x lo hi ≤ hi := by
  cases x <;> simp only [clip, pymax_eq, pymin_eq] <;>
    exact ⟨le_max_left _ _, max_le h (min_le_left _ _)⟩

theorem brandedCap_le (fs : ℚ) : brandedCap true fs ≤ 75 := by
  show pymin 75 (qsub fs 5) ≤ 75
  rw [pymin_eq]
  exact min_le_left _ _

theorem rustAdjust_le (sc : List Char) (fs : ℚ) (h : fs ≤ 75) :
    rustAdjust sc fs ≤ 75 := by
  have hm : (mkRat 15 10 : ℚ) = 3/2 := by rw [mkRat_eq_cast_div]; norm_num
  unfold rustAdjust
  split_ifs with hr
  · rw [qsub_eq, hm]
    have h1 := round1_le_add (fs - 3/2)
    linarith
  · exact h

/-! ## Claim C1 -/

/-- Claim C1: whenever the (trimmed, lowercased) title status is one of
rebuilt, salvage, branded, flood, lemon, the final deal score — after the
memory-stabilization blend, the branded cap and the rust-belt adjustment —
is at most 75, for every producer score, prior record and similar average. -/
theorem branded_title_ceiling (deal_score : Option PyVal)
    (exact_prev : Option HistoryRecord) (sims_nonempty : Bool)
    (similar_avg : Option ℚ) (title_status state_or_zip : Option (List Char))
    (h : isBranded title_status = true) :
    finalDealScore deal_score exact_prev sims_nonempty similar_avg
      title_status state_or_zip ≤ 75 := by
  unfold finalDealScore
  rw [h]
  exact rustAdjust_le _ _ (brandedCap_le _)

/-- Witness for `branded_title_ceiling`: a salvage title with the most
favorable inputs (producer score 100, exact prior 100, similar average
100, Rust Belt state) still scores at most 75. -/
theorem branded_title_ceiling_case :
    isBranded (some ("salvage".data)) = true ∧
    finalDealScore (some (PyVal.num 100)) (some ⟨some 100, some 50⟩) true
      (some 100) (some ("salvage".data)) (some ("OH".data)) ≤ 75 :=
  ⟨by decide, branded_title_ceiling _ _ _ _ _ _ (by decide)⟩

/-! ## Claim C2 -/

/-- Claim C2 counterexample: the code has no scale-correcting score
normalizer.  A raw `deal_score` of 8.5 stays 8.5 (the spec's normalizer
would give 85), and a missing `deal_score` becomes 60, not 50. -/
theorem score_normalizer_missing_cx :
    base_score (some (PyVal.num (mkRat 17 2))) = mkRat 17 2 ∧
    specNormalizeScore (some (mkRat 17 2)) = 85 ∧
    base_score (some (PyVal.num (mkRat 17 2))) ≠ 85 ∧
    base_score none = 60 ∧ (60 : ℚ) ≠ 50 := by decide

/-- Claim C2 amended: the producer's raw `deal_score` is only clipped to
[0,100]; a missing value defaults to 60, an unparseable one to 0, and a
raw 8.5 yields 8.5 — no 0-10/0-1000 scale repair exists. -/
theorem score_sanity_clamp :
    (∀ q : ℚ, base_score (some (PyVal.num q)) = max 0 (min 100 q)) ∧
    base_score none = 60 ∧
    base_score (some PyVal.other) = 0 ∧
    base_score (some (PyVal.num (mkRat 17 2))) = mkRat 17 2 := by
  refine ⟨fun q => ?_, by decide, by decide, by decide⟩
  simp [base_score, clip, pymax_eq, pymin_eq]

/-! ## Claim C3 -/

/-- Claim C3 counterexample: the exact-prior blend is rounded to one
decimal, so with current score 60.13 and exact prior 90 the code yields
67.6, not the claimed exact 0.75·60.13 + 0.25·90 = 67.5975. -/
theorem blend_rounding_cx :
    blendScore (mkRat 6013 100) (some ⟨some 90, none⟩) false none = mkRat 676 10 ∧
    qadd (qmul (mkRat 75 100) (mkRat 6013 100)) (qmul (mkRat 25 100) 90) =
      mkRat 675975 10000 ∧
    (mkRat 676 10 : ℚ) ≠ mkRat 675975 10000 := by decide

/-- Claim C3 amended: the four mutually exclusive blend cases hold with the
stated coefficients, each rounded to one decimal; the same-VIN-twice
scenario (raw 90 then 60) yields exactly 0.75·60 + 0.25·90 = 67.5. -/
theorem memory_blend_cases :
    (∀ (b : ℚ) (e : HistoryRecord) (a : ℚ), blendScore b (some e) true (some a) =
      round1 (qadd (qadd (qmul (mkRat 80 100) b)
        (qmul (mkRat 15 100) (e.deal_score.getD b))) (qmul (mkRat 5 100) a))) ∧
    (∀ (b : ℚ) (e : HistoryRecord) (sb : Bool), blendScore b (some e) sb none =
      round1 (qadd (qmul (mkRat 75 100) b)
        (qmul (mkRat 25 100) (e.deal_score.getD b)))) ∧
    (∀ (b a : ℚ) (sb : Bool), blendScore b none sb (some a) =
      round1 (qadd (qmul (mkRat 90 100) b) (qmul (mkRat 10 100) a))) ∧
    (∀ (b : ℚ) (sb : Bool), blendScore b none sb none = b) ∧
    finalDealScore (some (PyVal.num 90)) none false none none none = 90 ∧
    finalDealScore (some (PyVal.num 60)) (some ⟨some 90, some 0⟩) false none
      none none = mkRat 675 10 ∧
    qadd (qmul (mkRat 75 100) 60) (qmul (mkRat 25 100) 90) = mkRat 675 10 :=
  ⟨fun b e a => rfl, fun b e sb => rfl, fun b a sb => rfl, fun b sb => rfl,
   by decide, by decide, by decide⟩

/-! ## Claim C4 -/

/-- Claim C4 counterexample: with a salvage title the code subtracts 5 from
the expected ROI leg only; the optimistic and pessimistic legs are left
untouched (the claim would give -5 for every leg) and nothing is
re-clipped. -/
theorem branded_roi_penalty_cx :
    analyzeRoi none (some (PyVal.num 10)) (some (PyVal.num 10))
      (some (PyVal.num 10)) none false none (some ("salvage".data)) =
      ⟨5, 10, 10⟩ ∧
    (10 : ℚ) ≠ -5 ∧ (5 : ℚ) ≠ -5 := by decide

/-- Claim C4 amended: after the cap, a fixed 5-point reduction (rounded to
one decimal) is subtracted from the expected ROI leg only; the optimistic
and pessimistic legs are unchanged and no re-clip happens (the expected
leg can leave [-50,50]). -/
theorem branded_roi_expected_only :
    (∀ r : Roi24, (branded_roi_adjust true r).optimistic = r.optimistic) ∧
    (∀ r : Roi24, (branded_roi_adjust true r).pessimistic = r.pessimistic) ∧
    (∀ r : Roi24, (branded_roi_adjust true r).expected = round1 (qsub r.expected 5)) ∧
    (∀ r : Roi24, branded_roi_adjust false r = r) ∧
    branded_roi_adjust true ⟨-50, 0, 0⟩ = ⟨-55, 0, 0⟩ ∧ ((-55 : ℚ) < -50) :=
  ⟨fun r => rfl, fun r => rfl, fun r => rfl, fun r => rfl, by decide, by decide⟩

/-! ## Claim C5 -/

/-- Claim C5 counterexample: a raw ROI leg of 300 is clipped to 50 (the
spec's rule would divide by 100 and give 3), and a raw leg of 70 is
clipped to 50, not to the claimed bound 60. -/
theorem roi_leg_rule_cx :
    roi_leg (some (PyVal.num 300)) = 50 ∧
    specNormalizeRoi 300 = 3 ∧
    roi_leg (some (PyVal.num 300)) ≠ specNormalizeRoi 300 ∧
    roi_leg (some (PyVal.num 70)) = 50 ∧
    specNormalizeRoi 70 = 60 := by decide

/-- Claim C5 amended: each raw ROI leg is simply clipped to [-50,50]
(missing or unparseable legs become 0); there is no divide-by-100 rule and
the documented range is [-50,50], not [-80,60]. -/
theorem roi_leg_bounds :
    (∀ v, -50 ≤ roi_leg v ∧ roi_leg v ≤ 50) ∧
    roi_leg none = 0 ∧ roi_leg (some PyVal.other) = 0 := by
  refine ⟨fun v => ?_, by decide, by decide⟩
  unfold roi_leg
  exact clip_bounds _ _ _ (by norm_num)

/-! ## Claim C6 -/

/-- Claim C6 (code bug): the similar-prior term blended into the expected
ROI is `similar_avg`, the rounded average of the similar records' deal
scores (0-100 scale), not of their expected-ROI values.  With one similar
prior of deal score 80 and a current expected ROI of 10, the code returns
0.90·10 + 0.10·80 = 17 — the deal-score average flows into the ROI blend,
exactly as it flows into the score blend. -/
theorem roi_blend_uses_deal_scores :
    similarAvg [some 80] = some 80 ∧
    blendRoiExpected 10 none true (some 80) = 17 ∧
    blendScore 10 none true (some 80) = 17 := by decide

/-! ## Claim C7 -/

/-- Claim C7 counterexample: with `ask_price_usd = 0` and a producer
expected ROI of 10, the pipeline returns ROI {10, 0, 0}, not {0, 0, 0},
and the confidence defaults to 70 (saved as 0.7), not 0.5: there is no
ask-price sanity floor. -/
theorem zero_ask_roi_cx :
    analyzeRoi (some (PyVal.num 0)) (some (PyVal.num 10)) none none none
      false none none = ⟨10, 0, 0⟩ ∧
    (⟨10, 0, 0⟩ : Roi24) ≠ ⟨0, 0, 0⟩ ∧
    confidence none = 70 ∧
    confidence_level_saved none = mkRat 7 10 ∧
    (mkRat 7 10 : ℚ) ≠ mkRat 5 10 := by decide

/-- Claim C7 amended: the ask price never enters the ROI computation (the
output is identical for any two ask prices), so an ask price of 0 raises
nothing; the ROI legs are the producer's values clipped to [-50,50] and the
confidence is the producer's `confidence_level`·100 clipped to [0,100]
(default 70) — there is no fixed {0,0,0}/0.5 degenerate case. -/
theorem roi_ignores_ask_price :
    (∀ ask1 ask2 expected optimistic pessimistic exact_prev sims_nonempty
        similar_avg title_status,
      analyzeRoi ask1 expected optimistic pessimistic exact_prev
        sims_nonempty similar_avg title_status =
      analyzeRoi ask2 expected optimistic pessimistic exact_prev
        sims_nonempty similar_avg title_status) ∧
    analyzeRoi (some (PyVal.num 0)) (some (PyVal.num 10)) none none none
      false none none = ⟨10, 0, 0⟩ ∧
    confidence none = 70 :=
  ⟨fun _ _ _ _ _ _ _ _ _ => rfl, by decide, by decide⟩

/-! ## Claim C8 -/

/-- Claim C8 counterexample: with VIN " abc " the identifier is the first
12 hex characters of the MD5 of "ABC", namely "902fbdd2b1df" — not the
uppercased, trimmed VIN "ABC" itself. -/
theorem vin_id_is_hash_cx :
    unique_ad_id ("2015 Honda Civic".data) (" abc ".data) ("OH".data) none
      ("private".data) = "902fbdd2b1df".data ∧
    "902fbdd2b1df".data ≠ pyUpper (pyStrip (" abc ".data)) := by decide

/-- Claim C8 amended: `unique_ad_id` is a pure function (hence
deterministic); with a VIN present the identifier depends on the VIN alone
— changing description, price, location and seller leaves it unchanged —
and equals the 12-character MD5 prefix of the uppercased, trimmed VIN;
without a VIN it is the 12-character MD5 prefix of the lowercased join of
description prefix (160 characters), price guess, location and seller. -/
theorem unique_ad_id_determinism :
    (∀ (a1 a2 z1 z2 s1 s2 : List Char) (p1 p2 : Option Nat) (v : List Char),
      v.isEmpty = false →
      unique_ad_id a1 v z1 p1 s1 = unique_ad_id a2 v z2 p2 s2) ∧
    (∀ (v : List Char), v.isEmpty = false →
      ∀ a z p s, unique_ad_id a v z p s = (md5Hex (strBytes (pyUpper (pyStrip v)))).take 12) ∧
    (∀ a z p s, unique_ad_id a [] z p s =
      (md5Hex (strBytes (pyLower (a.take 160 ++ ('|' :: priceStr p) ++
        ('|' :: z) ++ ('|' :: s))))).take 12) := by
  refine ⟨fun a1 a2 z1 z2 s1 s2 p1 p2 v hv => ?_, fun v hv a z p s => ?_,
    fun a z p s => rfl⟩
  · simp [unique_ad_id, hv]
  · simp [unique_ad_id, hv]

/-- Witness for `unique_ad_id_determinism`: with VIN "X" two runs that
differ in every other argument produce the same identifier. -/
theorem unique_ad_id_determinism_case :
    ("X".data : List Char).isEmpty = false ∧
    unique_ad_id ("ad one".data) ("X".data) ("OH".data) none ("dealer".data) =
      unique_ad_id ("ad two".data) ("X".data) ("44105".data) (some 15000)
        ("private".data) ∧
    unique_ad_id ("ad one".data) ("X".data) ("OH".data) none ("dealer".data) =
      (md5Hex (strBytes (pyUpper (pyStrip ("X".data))))).take 12 :=
  ⟨by decide,
   unique_ad_id_determinism.1 _ _ _ _ _ _ _ _ _ (by decide),
   unique_ad_id_determinism.2.1 _ (by decide) _ _ _ _⟩

/-! ## Claim C9 -/

/-- Claim C9: `save_history` is a bounded append: the stored list never
exceeds `MEMORY_LIMIT` (600) records, the new entry sits at the end, and
the result is exactly the appended list with precisely the oldest
`(n+1) - 600` records dropped from the front (zero when under the cap, so
previously stored records keep their content and relative order). -/
theorem save_history_bounded_append {α : Type} (data : List α) (entry : α) :
    (save_history data entry).length ≤ MEMORY_LIMIT ∧
    (save_history data entry).getLast? = some entry ∧
    save_history data entry =
      (data ++ [entry]).drop (data.length + 1 - MEMORY_LIMIT) := by
  have hlen : (data ++ [entry]).length = data.length + 1 := by
    simp
  unfold save_history
  split_ifs with h
  · refine ⟨?_, ?_, ?_⟩
    · rw [List.length_drop, hlen]
      omega
    · rw [hlen] at h ⊢
      rw [List.drop_append_of_le_length (by unfold MEMORY_LIMIT at h ⊢; omega),
        List.getLast?_concat]
    · rw [hlen]
  · rw [hlen] at h
    have h0 : data.length + 1 - MEMORY_LIMIT = 0 := by omega
    rw [h0, List.drop_zero]
    refine ⟨by rw [hlen]; omega, List.getLast?_concat _, rfl⟩

/-! ## Claim C10 -/

/-- Claim C10 counterexample: with no priors, a clean title, state "OH" and
raw score 60.13, the code returns round(60.13 - 1.5, 1) = 58.6, not the
claimed exact 60.13 - 1.5 = 58.63. -/
theorem rust_belt_rounding_cx :
    finalDealScore (some (PyVal.num (mkRat 6013 100))) none false none none
      (some ("OH".data)) = mkRat 586 10 ∧
    qsub (mkRat 6013 100) (mkRat 15 10) = mkRat 5863 100 ∧
    (mkRat 586 10 : ℚ) ≠ mkRat 5863 100 := by decide

/-- Claim C10 amended: when the trimmed, uppercased `state_or_zip` is a
two-letter Rust Belt code, the final score becomes the one-decimal
rounding of (score − 1.5), applied after blending and the branded cap; a
five-digit ZIP never triggers the reduction. -/
theorem rust_belt_adjustment :
    (∀ deal_score exact_prev sims_nonempty similar_avg title_status s,
      normState s ∈ RUST_BELT_STATES →
      finalDealScore deal_score exact_prev sims_nonempty similar_avg
        title_status s =
      round1 (qsub (brandedCap (isBranded title_status)
        (blendScore (base_score deal_score) exact_prev sims_nonempty
          similar_avg)) (mkRat 15 10))) ∧
    (∀ deal_score exact_prev sims_nonempty similar_avg title_status s,
      isFiveDigit (normState s) = true →
      finalDealScore deal_score exact_prev sims_nonempty similar_avg
        title_status s =
      brandedCap (isBranded title_status)
        (blendScore (base_score deal_score) exact_prev sims_nonempty
          similar_avg)) := by
  constructor
  · intro deal_score exact_prev sims_nonempty similar_avg title_status s h
    have h2 : isTwoUpper (normState s) = true := by
      have hh := h
      simp only [RUST_BELT_STATES, List.mem_cons, List.mem_singleton,
        List.not_mem_nil, or_false] at hh
      rcases hh with hh | hh | hh | hh | hh | hh | hh | hh | hh | hh <;>
        rw [hh] <;> decide
    have h3 : RUST_BELT_STATES.contains (normState s) = true :=
      List.elem_eq_true_of_mem h
    have hsc : stateCode (normState s) = normState s := by
      unfold stateCode
      rw [h2]
      exact if_pos rfl
    unfold finalDealScore
    rw [hsc]
    unfold rustAdjust
    rw [h3]
    exact if_pos rfl
  · intro deal_score exact_prev sims_nonempty similar_avg title_status s h
    have h5 : (normState s).length = 5 := by
      have h' := h
      unfold isFiveDigit at h'
      simp only [Bool.and_eq_true, beq_iff_eq] at h'
      exact h'.1
    have h2 : isTwoUpper (normState s) = false := by
      unfold isTwoUpper
      rw [h5]
      simp
    have hc : RUST_BELT_STATES.contains ([] : List Char) = false := by decide
    have hsc : stateCode (normState s) = [] := by
      unfold stateCode
      rw [h2]
      exact if_neg Bool.false_ne_true
    unfold finalDealScore
    rw [hsc]
    unfold rustAdjust
    rw [hc]
    exact if_neg Bool.false_ne_true

/-- Witness for `rust_belt_adjustment`: lowercase "oh" (normalized to "OH")
triggers the reduction; the ZIP "44105" does not. -/
theorem rust_belt_adjustment_case :
    normState (some ("oh".data)) ∈ RUST_BELT_STATES ∧
    finalDealScore (some (PyVal.num 80)) none false none none
      (some ("oh".data)) =
      round1 (qsub (brandedCap (isBranded none)
        (blendScore (base_score (some (PyVal.num 80))) none false none))
        (mkRat 15 10)) ∧
    isFiveDigit (normState (some ("44105".data))) = true ∧
    finalDealScore (some (PyVal.num 80)) none false none none
      (some ("44105".data)) =
      brandedCap (isBranded none)
        (blendScore (base_score (some (PyVal.num 80))) none false none) :=
  ⟨by decide,
   rust_belt_adjustment.1 _ _ _ _ _ _ (by decide),
   by decide,
   rust_belt_adjustment.2 _ _ _ _ _ _ (by decide)⟩

end DealCheck
